import Mathlib

/-!
Shallow embedding of the BNM announcement-ingestion pipeline
(backend/app: services/scraper.py, services/storage.py, services/ocr.py,
services/embeddings.py, utils/pdf_handler.py, api/routes/bnm_cron.py).

External collaborators (the Playwright browser, the n8n OCR webhook, the
OpenAI embeddings API, the Supabase client) are modelled as oracles: an
`Except Unit α` value stands for one call that either raises (`.error`)
or returns a value (`.ok`).  Everything the repository's own code does
with those results is embedded faithfully.  Timestamps and the logged
error strings are side effects no claim depends on and are not modelled;
`datetime.now().isoformat()` is passed in as an opaque `now : String`.
-/

namespace BNM

/-- An embedding vector: a fixed-dimension numeric sequence whose numeric
content no pipeline decision inspects. -/
abbrev Vec := List Int

/-! Python string primitives

The pipeline leans on four `str` methods; they are embedded structurally
over the character list so that every definition in this file evaluates
inside the kernel. -/

/-- The whitespace characters Python's `str.strip()` removes (restricted
to the ASCII range; the scraped data is ASCII). -/
def isPyWhitespace (c : Char) : Bool :=
  c == ' ' || c == '\t' || c == '\n' || c == '\r' || c == '\x0b' || c == '\x0c'

/-- Model of Python `s.strip()`: drop leading and trailing whitespace. -/
def pyStrip (s : String) : String :=
  String.mk (((s.toList.dropWhile isPyWhitespace).reverse.dropWhile isPyWhitespace).reverse)

/-- Model of Python `s.replace("\n", " ")`: the pattern is a single character, so
the replacement is a per-character map. -/
def pyReplaceNewlines (s : String) : String :=
  String.mk (s.toList.map (fun c => if c == '\n' then ' ' else c))

/-- Model of Python `s[:n]`: keep the first `n` characters. -/
def pyTake (s : String) (n : Nat) : String :=
  String.mk (s.toList.take n)

/-- Model of Python `s.endswith(suf)`. -/
def pyEndsWith (s suf : String) : Bool :=
  s.toList.reverse.take suf.toList.length == suf.toList.reverse

/-! Constants from config.py -/

/-- Constant `BATCH_EMBEDDING_SIZE = 10` from config.py. -/
def BATCH_EMBEDDING_SIZE : Nat := 10

/-! Data model -/

/-- One per-page entry of the OCR webhook's JSON: `index` (0-based) and
`markdown` body.  The structural metadata (header, footer, dimensions,
tables/images/hyperlinks) is carried opaquely by keeping the whole page
value inside `PageData.page_info`. -/
structure OcrPage where
  index : Nat
  markdown : String
deriving Repr, DecidableEq

/-- The unwrapped OCR payload: `pages` plus the whole-document
`extractedText` field. -/
structure OcrData where
  pages : List OcrPage
  extractedText : String
deriving Repr, DecidableEq

/-- The OCR webhook may answer with a single object or a list wrapping
objects (ocr.py lines 37-38 unwrap a non-empty list). -/
inductive OcrResponse where
  | single : OcrData → OcrResponse
  | listResp : List OcrData → OcrResponse
deriving Repr, DecidableEq

/-- One element of `page_data_list` built in `process_new_document`. -/
structure PageData where
  page_number : Nat
  content : String
  original_text : String
  page_info : OcrPage
deriving Repr, DecidableEq

/-- One row of the `bnm_announcements` table as inserted by
`store_document_pages` (storage.py lines 89-100).  The two metadata
blocks contain only scrape/processing timestamps and counts derived from
`page_info`; no claim reads them, so they are not replicated here. -/
structure Row where
  date : String
  title : String
  doc_type : String
  pdf_url : String
  page_number : Nat
  content : String
  original_text : String
  embedding : Vec
deriving Repr, DecidableEq

/-- A successful Playwright download before the size check:
the saved file path and `filepath.stat().st_size`. -/
structure Download where
  path : String
  size : Nat
deriving Repr, DecidableEq

/-- One row of the scraped announcements table
(scraper.py lines 56-65): date, title, type, resolved links. -/
structure AnnRow where
  date : String
  title : String
  doc_type : String
  links : List String
deriving Repr, DecidableEq

/-- One (date, title, type, pdf_url) tuple appended to `new_docs` in
`run_daily_scrape`. -/
structure WorkItem where
  date : String
  title : String
  doc_type : String
  pdf_url : String
deriving Repr, DecidableEq

/-- The process-wide `cron_status` dict (bnm_cron.py lines 24-31). -/
structure CronStatus where
  last_run : Option String
  status : String
  new_documents : Nat
  processed : Nat
  failed : Nat
  message : String
deriving Repr, DecidableEq

/-- Shape of the `CronResponse` pydantic model returned by the trigger route. -/
structure CronResponse where
  status : String
  message : String
  job_id : Option String
deriving Repr, DecidableEq

/-! Leaf services -/

/-- Model of `scrape_bnm_announcements` (scraper.py): the whole browse-and-parse
body sits in one `try`; any exception is logged and an empty DataFrame
returned.  `result` is the oracle for that body. -/
def scrape_bnm_announcements (result : Except Unit (List AnnRow)) : List AnnRow :=
  match result with
  | .ok rows => rows
  | .error _ => []

/-- Model of `check_document_exists` (storage.py lines 18-33): runs the
select-by-title-and-date query; `except: return False`. -/
def check_document_exists (query : Except Unit (List Row)) : Bool :=
  match query with
  | .ok rows => decide (rows.length > 0)
  | .error _ => false

/-- The query `check_document_exists` issues against the table:
`.select("id").eq("title", title).eq("date", date).limit(1)`. -/
def existsQuery (storage : List Row) (title date : String) : List Row :=
  ((storage.filter (fun r => r.title == title && r.date == date)).take 1)

/-- Model of `extract_text_from_pdf` (ocr.py): posts the PDF, raises on transport
errors and non-2xx (`raise_for_status`), unwraps a non-empty list
response; every exception is caught and mapped to `None`.  An empty-list
response is returned as-is by the source and then rejected by the
caller's falsiness check `if not ocr_data`; both outcomes are `none`
here. -/
def extract_text_from_pdf (resp : Except Unit OcrResponse) : Option OcrData :=
  match resp with
  | .error _ => none
  | .ok (.single d) => some d
  | .ok (.listResp []) => none
  | .ok (.listResp (d :: _)) => some d

/-- Model of `download_pdf` (pdf_handler.py): any exception in the browser body is
caught and mapped to `None`; a saved payload under 1000 bytes is deleted
and mapped to `None`. -/
def download_pdf (attempt : Except Unit Download) : Option String :=
  match attempt with
  | .error _ => none
  | .ok d => if d.size < 1000 then none else some d.path

/-- The per-string preprocessing in `generate_embeddings_batch`
(embeddings.py lines 29-33): newlines to spaces, strip, hard-truncate to
8000 characters. -/
def cleanText (text : String) : String :=
  let cleaned := pyStrip (pyReplaceNewlines text)
  if cleaned.length > 8000 then pyTake cleaned 8000 else cleaned

/-- Model of `generate_embeddings_batch` (embeddings.py lines 17-42): cleans each
text, then calls the OpenAI API.  The source has no `try`/`except`: an
API failure propagates to the caller unchanged. -/
def generate_embeddings_batch (call : List String → Except Unit (List Vec))
    (texts : List String) : Except Unit (List Vec) :=
  call (texts.map cleanText)

/-- The row `store_document_pages` builds for one page
(storage.py lines 89-100), minus the two timestamp/metadata blocks. -/
def mkRow (date title doc_type pdf_url : String) (pd : PageData) (emb : Vec) : Row :=
  { date := date
    title := title
    doc_type := doc_type
    pdf_url := pdf_url
    page_number := pd.page_number
    content := pd.content
    original_text := pd.original_text
    embedding := emb }

/-- Model of `store_document_pages` (storage.py lines 36-108): iterate
`zip(pages_data, embeddings)`, attempt each insert inside its own `try`,
count successes, log-and-skip failures, return the count.  `ins` is the
oracle saying whether one `insert(data).execute()` call succeeds. -/
def store_document_pages (ins : Row → Bool) (date title doc_type pdf_url : String)
    (pages_data : List PageData) (embeddings : List Vec) : Nat :=
  (pages_data.zip embeddings).foldl
    (fun pages_stored pe =>
      if ins (mkRow date title doc_type pdf_url pe.1 pe.2) then pages_stored + 1
      else pages_stored)
    0

/-- The database side effect of `store_document_pages`: the rows whose
insert succeeded, in iteration order. -/
def inserted_rows (ins : Row → Bool) (date title doc_type pdf_url : String)
    (pages_data : List PageData) (embeddings : List Vec) : List Row :=
  (pages_data.zip embeddings).filterMap
    (fun pe =>
      let r := mkRow date title doc_type pdf_url pe.1 pe.2
      if ins r then some r else none)

/-! Document Processor (bnm_cron.py process_new_document) -/

/-- The page-preparation loop of `process_new_document`
(bnm_cron.py lines 63-75): `page_number = index + 1`; skip a page whose
markdown is empty or whose stripped length is below 50; keep the rest. -/
def buildPageDataList (pages : List OcrPage) (extractedText : String) : List PageData :=
  pages.filterMap (fun page =>
    let page_number := page.index + 1
    let markdown_content := page.markdown
    if markdown_content == "" || (pyStrip markdown_content).length < 50 then none
    else some { page_number := page_number
                content := markdown_content
                original_text := extractedText
                page_info := page })

/-- The batching loop of `process_new_document` (bnm_cron.py lines
84-88), with explicit fuel: one `generate_embeddings_batch` call per
`BATCH_EMBEDDING_SIZE`-sized slice, results concatenated in slice order;
the first raising call aborts the whole loop with that exception.  The
fuel only bounds the recursion; `embedBatchesLoop` supplies
`texts.length`, which always suffices since each step drops at least one
element of a non-empty list. -/
def embedBatchesFuel (call : List String → Except Unit (List Vec)) :
    Nat → List String → Except Unit (List Vec)
  | _, [] => .ok []
  | 0, _ :: _ => .ok []
  | fuel + 1, t :: rest =>
    match generate_embeddings_batch call ((t :: rest).take BATCH_EMBEDDING_SIZE) with
    | .error e => .error e
    | .ok v =>
      match embedBatchesFuel call fuel ((t :: rest).drop BATCH_EMBEDDING_SIZE) with
      | .error e => .error e
      | .ok tail => .ok (v ++ tail)

/-- Model of `for i in range(0, len(page_data_list), BATCH_EMBEDDING_SIZE)`
over the contents, accumulating `all_embeddings`. -/
def embedBatchesLoop (call : List String → Except Unit (List Vec))
    (texts : List String) : Except Unit (List Vec) :=
  embedBatchesFuel call texts.length texts

/-- The collaborator oracles one run draws on: the download attempt per
PDF URL, the OCR webhook response per downloaded path, the OpenAI
embeddings call, and the per-row insert outcome. -/
structure Env where
  dl : String → Except Unit Download
  ocrResp : String → Except Unit OcrResponse
  call : List String → Except Unit (List Vec)
  ins : Row → Bool

/-- What one `process_new_document` call did: its return value, whether a
download produced a local file, how many times `pdf_path.unlink()` ran,
and which rows the storage insert loop wrote. -/
structure ProcResult where
  success : Bool
  downloaded : Bool
  unlinks : Nat
  rows : List Row
deriving Repr, DecidableEq

/-- Model of `process_new_document` (bnm_cron.py lines 34-108).  The whole body
sits in one `try` whose handler logs and returns `False`; inside the
model the only raising step is the embeddings call (every other
collaborator call absorbs its own errors), so the `.error` branch of the
batching loop is exactly the handler path — reached without running
`pdf_path.unlink()`. -/
def process_new_document (env : Env) (date title doc_type pdf_url : String) : ProcResult :=
  match download_pdf (env.dl pdf_url) with
  | none => { success := false, downloaded := false, unlinks := 0, rows := [] }
  | some pdf_path =>
    match extract_text_from_pdf (env.ocrResp pdf_path) with
    | none => { success := false, downloaded := true, unlinks := 1, rows := [] }
    | some ocr_data =>
      let page_data_list := buildPageDataList ocr_data.pages ocr_data.extractedText
      if page_data_list.isEmpty then
        { success := false, downloaded := true, unlinks := 1, rows := [] }
      else
        match embedBatchesLoop env.call (page_data_list.map (fun p => p.content)) with
        | .error _ => { success := false, downloaded := true, unlinks := 0, rows := [] }
        | .ok all_embeddings =>
          let pages_stored := store_document_pages env.ins date title doc_type pdf_url
            page_data_list all_embeddings
          { success := decide (pages_stored > 0)
            downloaded := true
            unlinks := 1
            rows := inserted_rows env.ins date title doc_type pdf_url
              page_data_list all_embeddings }

/-- Whether `process_new_document` reaches the embedding loop and that
loop raises — the one path of the model on which the `except` handler
fires after a successful download. -/
def embedPhaseRaised (env : Env) (pdf_url : String) : Bool :=
  match download_pdf (env.dl pdf_url) with
  | none => false
  | some pdf_path =>
    match extract_text_from_pdf (env.ocrResp pdf_path) with
    | none => false
    | some ocr_data =>
      let page_data_list := buildPageDataList ocr_data.pages ocr_data.extractedText
      if page_data_list.isEmpty then false
      else
        match embedBatchesLoop env.call (page_data_list.map (fun p => p.content)) with
        | .error _ => true
        | .ok _ => false

/-! Run Coordinator (bnm_cron.py run_daily_scrape and the trigger route) -/

/-- The discovery loop of `run_daily_scrape` (bnm_cron.py lines 130-150):
per scraped row, one existence check against the live table; on a miss,
`new_documents += 1` and every link ending in `.pdf` becomes one entry of
`new_docs`.  Returns (new_documents, new_docs). -/
def collectNewDocs (storage : List Row) (df : List AnnRow) : Nat × List WorkItem :=
  df.foldl
    (fun acc row =>
      if check_document_exists (.ok (existsQuery storage row.title row.date)) then acc
      else
        let pdf_links := row.links.filter (fun link => pyEndsWith link ".pdf")
        (acc.1 + 1,
         acc.2 ++ pdf_links.map (fun pdf_url =>
           { date := row.date
             title := row.title
             doc_type := row.doc_type
             pdf_url := pdf_url })))
    (0, [])

/-- The processing loop of `run_daily_scrape` (bnm_cron.py lines
153-166): strictly sequential, `processed`/`failed` per outcome, inserts
appended to the table inside `process_new_document`.  The fixed
`asyncio.sleep(2)` pacing between items has no observable effect here.
Returns (processed, failed, table contents after the loop). -/
def processAll (env : Env) (items : List WorkItem) (storage : List Row) :
    Nat × Nat × List Row :=
  items.foldl
    (fun acc item =>
      match acc with
      | (processed, failed, st) =>
        let r := process_new_document env item.date item.title item.doc_type item.pdf_url
        (if r.success then processed + 1 else processed,
         if r.success then failed else failed + 1,
         st ++ r.rows))
    (0, 0, storage)

/-- Model of `run_daily_scrape` (bnm_cron.py lines 111-174) over an explicit table
state: reset counters and mark `running`, scrape, short-circuit on an
empty catalog, otherwise discover then process.  The outer `except`
branch (status `error`) is unreachable in the model because every step
below it is total.  Returns the final `cron_status` and table
contents. -/
def run_daily_scrape (env : Env) (scrapeResult : Except Unit (List AnnRow))
    (now : String) (prev : CronStatus) (storage : List Row) :
    CronStatus × List Row :=
  let st := { prev with
              last_run := some now
              status := "running"
              new_documents := 0
              processed := 0
              failed := 0 }
  let df := scrape_bnm_announcements scrapeResult
  if df.isEmpty then
    ({ st with
       status := "completed"
       message := "No data scraped from BNM website" }, storage)
  else
    let nd := collectNewDocs storage df
    let res := processAll env nd.2 storage
    ({ st with
       status := "completed"
       new_documents := nd.1
       processed := res.1
       failed := res.2.1
       message := "Processed " ++ toString res.1 ++ " new documents, " ++
         toString res.2.1 ++ " failed" }, res.2.2)

/-- Model of `trigger_bnm_scrape` (bnm_cron.py lines 177-197): reject with HTTP
409 while a run is in flight, leaving `cron_status` untouched and
scheduling nothing; otherwise schedule `run_daily_scrape` as a background
task and acknowledge.  Returns (status after the handler, whether the
background task was scheduled, response or error code). -/
def trigger_bnm_scrape (st : CronStatus) (now : String) :
    CronStatus × Bool × Except Nat CronResponse :=
  if st.status == "running" then (st, false, .error 409)
  else
    (st, true,
     .ok { status := "started"
           message := "BNM scraping job started in background"
           job_id := some now })

/-! Concrete fixtures used by the witnesses and counterexamples below. -/

/-- A 49-character markdown body (just below the retention threshold). -/
def a49 : String := String.mk (List.replicate 49 'a')

/-- A 50-character markdown body (exactly at the retention threshold). -/
def a50 : String := String.mk (List.replicate 50 'a')

/-- A 60-character markdown body, comfortably retained. -/
def a60 : String := String.mk (List.replicate 60 'a')

/-- A second retained 60-character body, distinguishable from `a60`. -/
def b60 : String := String.mk (List.replicate 60 'b')

/-- An environment whose download and OCR calls succeed with one
retained page while the OpenAI embeddings call raises. -/
def envFailEmbed : Env :=
  { dl := fun _ => .ok { path := "/tmp/a.pdf", size := 2000 }
    ocrResp := fun _ =>
      .ok (.single { pages := [{ index := 0, markdown := a60 }], extractedText := "full" })
    call := fun _ => .error ()
    ins := fun _ => true }

/-- An environment in which every collaborator call succeeds. -/
def envOk : Env :=
  { envFailEmbed with call := fun ts => .ok (ts.map (fun _ => [1])) }

/-- A three-page OCR payload in which every page passes the filter. -/
def od3 : OcrData :=
  { pages := [{ index := 0, markdown := a60 },
              { index := 1, markdown := a50 },
              { index := 2, markdown := b60 }]
    extractedText := "full" }

/-- An environment with the three-page OCR result `od3` in which only
the insert of page 2 succeeds. -/
def envOnePageStores : Env :=
  { dl := fun _ => .ok { path := "/tmp/a.pdf", size := 2000 }
    ocrResp := fun _ => .ok (.single od3)
    call := fun ts => .ok (ts.map (fun _ => [1]))
    ins := fun r => r.page_number == 2 }

/-- The initial `cron_status` value (bnm_cron.py lines 24-31). -/
def idleStatus : CronStatus :=
  { last_run := none
    status := "idle"
    new_documents := 0
    processed := 0
    failed := 0
    message := "Not run yet" }

/-- A status snapshot of an in-flight run. -/
def runningStatus : CronStatus := { idleStatus with status := "running" }

/-- A one-announcement catalog whose only attachment link is not a PDF. -/
def catNoPdf : Except Unit (List AnnRow) :=
  .ok [{ date := "2024-01-01", title := "T", doc_type := "Announcement"
         links := ["https://x/a.html"] }]

/-- A one-announcement catalog with a single PDF attachment link. -/
def catPdf : Except Unit (List AnnRow) :=
  .ok [{ date := "2024-01-01", title := "T", doc_type := "Announcement"
         links := ["https://x/a.pdf"] }]

/-- One announcement carrying two distinct PDF links and one non-PDF
link. -/
def annTwoPdf : AnnRow :=
  { date := "2024-01-01", title := "T", doc_type := "Announcement"
    links := ["https://x/a.pdf", "https://x/b.html", "https://x/c.pdf"] }

/-- Three pages of which the middle one fails the 50-character filter. -/
def pages3 : List OcrPage :=
  [{ index := 0, markdown := a60 }, { index := 1, markdown := "short" },
   { index := 2, markdown := b60 }]

/-- An embeddings oracle returning one vector per input: the input's
length. -/
def callLen : List String → Except Unit (List Vec) :=
  fun ts => .ok (ts.map (fun s => [(s.length : Int)]))

/-- Two page-data entries for the zip-truncation witness. -/
def pd2 : List PageData :=
  [{ page_number := 1, content := a60, original_text := "full"
     page_info := { index := 0, markdown := a60 } },
   { page_number := 2, content := b60, original_text := "full"
     page_info := { index := 1, markdown := b60 } }]

/-- A trailing page-data entry that must never be attempted when the
embedding list is shorter. -/
def pdExtra : List PageData :=
  [{ page_number := 3, content := a50, original_text := "full"
     page_info := { index := 2, markdown := a50 } }]

/-- The work items one announcement row expands into: one per link
ending in `.pdf`, in link order. -/
def pdfWorkItems (row : AnnRow) : List WorkItem :=
  (row.links.filter (fun link => pyEndsWith link ".pdf")).map (fun pdf_url =>
    { date := row.date
      title := row.title
      doc_type := row.doc_type
      pdf_url := pdf_url })

/-! Helper lemmas -/

theorem foldl_count_ite {α : Type} (p : α → Bool) (l : List α) (n : Nat) :
    l.foldl (fun acc x => if p x then acc + 1 else acc) n = n + l.countP p := by
  induction l generalizing n with
  | nil => simp
  | cons a l ih =>
    simp only [List.foldl_cons, List.countP_cons, ih]
    by_cases h : p a
    · simp only [h, if_true]
      omega
    · simp [h]

/-- The storage loop counts exactly the zipped pairs whose insert
succeeds. -/
theorem store_document_pages_eq_countP (ins : Row → Bool)
    (date title doc_type pdf_url : String)
    (pages_data : List PageData) (embeddings : List Vec) :
    store_document_pages ins date title doc_type pdf_url pages_data embeddings =
      (pages_data.zip embeddings).countP
        (fun pe => ins (mkRow date title doc_type pdf_url pe.1 pe.2)) := by
  unfold store_document_pages
  rw [foldl_count_ite]
  exact Nat.zero_add _

theorem filterMap_ite_none {α β : Type} (q : α → Bool) (g : α → β) (l : List α) :
    l.filterMap (fun a => if q a then none else some (g a)) =
      (l.filter (fun a => !q a)).map g := by
  induction l with
  | nil => rfl
  | cons a l ih =>
    by_cases h : q a
    · simp [List.filterMap_cons, List.filter_cons, h, ih]
    · simp [List.filterMap_cons, List.filter_cons, h, ih]

/-- The page-preparation loop keeps exactly the pages passing the
50-character rule, in order, turning each into its `PageData`. -/
theorem buildPageDataList_eq (pages : List OcrPage) (ext : String) :
    buildPageDataList pages ext =
      (pages.filter (fun p => !(p.markdown == "" || (pyStrip p.markdown).length < 50))).map
        (fun p => { page_number := p.index + 1
                    content := p.markdown
                    original_text := ext
                    page_info := p }) :=
  filterMap_ite_none _ _ pages

/-- Truncation of `zip` by the shorter right list: everything past the
embeddings never enters the loop. -/
theorem zip_append_of_le {α β : Type} (l₁ extra : List α) (l₂ : List β)
    (h : l₂.length ≤ l₁.length) : (l₁ ++ extra).zip l₂ = l₁.zip l₂ := by
  induction l₂ generalizing l₁ with
  | nil => simp
  | cons b bs ih =>
    cases l₁ with
    | nil => simp at h
    | cons a as =>
      simp only [List.cons_append, List.zip_cons_cons]
      rw [ih as (by simpa using h)]

/-- When every embedding call answers one vector per input in order, the
batching loop reproduces the whole cleaned-text map, given enough
fuel. -/
theorem embedBatchesFuel_map (call : List String → Except Unit (List Vec))
    (f : String → Vec) (hcall : ∀ ts, call ts = .ok (ts.map f)) :
    ∀ (fuel : Nat) (texts : List String), texts.length ≤ fuel →
      embedBatchesFuel call fuel texts = .ok (texts.map (fun s => f (cleanText s))) := by
  intro fuel
  induction fuel with
  | zero =>
    intro texts h
    cases texts with
    | nil => rfl
    | cons t rest => simp at h
  | succ n ih =>
    intro texts h
    cases texts with
    | nil => rfl
    | cons t rest =>
      have h1 : generate_embeddings_batch call ((t :: rest).take BATCH_EMBEDDING_SIZE)
          = .ok (((t :: rest).take BATCH_EMBEDDING_SIZE).map (fun s => f (cleanText s))) := by
        unfold generate_embeddings_batch
        rw [hcall, List.map_map]
        rfl
      have h2 : ((t :: rest).drop BATCH_EMBEDDING_SIZE).length ≤ n := by
        simp only [List.length_drop, List.length_cons]
        simp only [List.length_cons] at h
        have hB : 0 < BATCH_EMBEDDING_SIZE := by decide
        omega
      have h3 : ((t :: rest).take BATCH_EMBEDDING_SIZE).map (fun s => f (cleanText s)) ++
          ((t :: rest).drop BATCH_EMBEDDING_SIZE).map (fun s => f (cleanText s)) =
          (t :: rest).map (fun s => f (cleanText s)) := by
        rw [← List.map_append, List.take_append_drop]
      unfold embedBatchesFuel
      rw [h1, ih _ h2]
      exact congrArg Except.ok h3

/-- Discovery-loop unfolding: the accumulator is carried through
untouched rows and extended on new ones. -/
theorem collectNewDocs_foldl (storage : List Row) (df : List AnnRow) :
    ∀ (n : Nat) (acc : List WorkItem),
      df.foldl
        (fun acc row =>
          if check_document_exists (.ok (existsQuery storage row.title row.date)) then acc
          else
            let pdf_links := row.links.filter (fun link => pyEndsWith link ".pdf")
            (acc.1 + 1,
             acc.2 ++ pdf_links.map (fun pdf_url =>
               { date := row.date
                 title := row.title
                 doc_type := row.doc_type
                 pdf_url := pdf_url })))
        (n, acc) =
      (n + (df.filter (fun row =>
              !check_document_exists (.ok (existsQuery storage row.title row.date)))).length,
       acc ++ (df.filter (fun row =>
              !check_document_exists (.ok (existsQuery storage row.title row.date)))).flatMap
           pdfWorkItems) := by
  induction df with
  | nil => intro n acc; simp
  | cons row rows ih =>
    intro n acc
    by_cases h : check_document_exists (.ok (existsQuery storage row.title row.date)) = true
    · simp only [List.foldl_cons, List.filter_cons, h, if_true, Bool.not_true,
        Bool.false_eq_true, if_false]
      exact ih n acc
    · have hb : check_document_exists (.ok (existsQuery storage row.title row.date)) = false := by
        revert h
        cases check_document_exists (.ok (existsQuery storage row.title row.date)) <;> simp
      simp only [List.foldl_cons, List.filter_cons, hb, Bool.false_eq_true, if_false,
        Bool.not_false, if_true]
      rw [ih (n + 1) _]
      simp only [List.length_cons, List.flatMap_cons, List.append_assoc, pdfWorkItems,
        Prod.mk.injEq]
      exact ⟨by omega, trivial⟩

/-- The discovery loop in closed form: the new-document count is the
number of rows with no existing match, and the work items are the
PDF-link expansions of exactly those rows, in order. -/
theorem collectNewDocs_spec (storage : List Row) (df : List AnnRow) :
    collectNewDocs storage df =
      ((df.filter (fun row =>
          !check_document_exists (.ok (existsQuery storage row.title row.date)))).length,
       (df.filter (fun row =>
          !check_document_exists (.ok (existsQuery storage row.title row.date)))).flatMap
         pdfWorkItems) := by
  unfold collectNewDocs
  rw [collectNewDocs_foldl storage df 0 []]
  simp

/-! Claims -/

/-- C2: the claim says every leaf collaborator converts a transient
failure to a null/empty/false result and never raises it past the
component.  Counterexample: `generate_embeddings_batch` has no handler,
so a raising embeddings call surfaces to its caller as the raised
error, not as a null/empty result. -/
theorem claim_C2_counterexample :
    generate_embeddings_batch (fun _ => .error ()) ["boom"] = .error () := rfl

/-- C2 (amended): the site scrape, OCR extraction, existence check and
attachment fetch absorb a transient failure at their own boundary,
converting it to an empty/none/false result; the embedding generator
alone propagates the failure unchanged to its caller, the Document
Processor, whose top-level handler absorbs it. -/
theorem claim_C2_absorption_amended (e : Unit) (texts : List String) :
    scrape_bnm_announcements (.error e) = [] ∧
    extract_text_from_pdf (.error e) = none ∧
    check_document_exists (.error e) = false ∧
    download_pdf (.error e) = none ∧
    generate_embeddings_batch (fun _ => .error e) texts = .error e :=
  ⟨rfl, rfl, rfl, rfl, rfl⟩

/-- C4: triggering while `status == "running"` yields HTTP 409, leaves
the in-flight `cron_status` untouched and schedules no run; otherwise
the handler schedules the background run and acknowledges with status
"started", a job identifier, and a message. -/
theorem claim_C4_concurrency_gate (st : CronStatus) (now : String) :
    (st.status = "running" → trigger_bnm_scrape st now = (st, false, .error 409)) ∧
    (st.status ≠ "running" →
      trigger_bnm_scrape st now =
        (st, true,
         .ok { status := "started"
               message := "BNM scraping job started in background"
               job_id := some now })) := by
  constructor
  · intro h
    simp [trigger_bnm_scrape, h]
  · intro h
    simp [trigger_bnm_scrape, h]

/-- C4 witness: the gate at the concrete running and idle snapshots. -/
theorem claim_C4_witness :
    trigger_bnm_scrape runningStatus "t0" = (runningStatus, false, .error 409) ∧
    trigger_bnm_scrape idleStatus "t0" =
      (idleStatus, true,
       .ok { status := "started"
             message := "BNM scraping job started in background"
             job_id := some "t0" }) :=
  ⟨(claim_C4_concurrency_gate runningStatus "t0").1 rfl,
   (claim_C4_concurrency_gate idleStatus "t0").2 (by decide)⟩

/-- C5: a raising backing query makes `check_document_exists` return
false rather than propagate; a successful query reports true exactly
when some stored row matches the (title, date) pair. -/
theorem claim_C5_fail_open_exists :
    (∀ e : Unit, check_document_exists (.error e) = false) ∧
    (∀ (storage : List Row) (title date : String),
      check_document_exists (.ok (existsQuery storage title date)) =
        storage.any (fun r => r.title == title && r.date == date)) := by
  refine ⟨fun e => rfl, fun storage title date => ?_⟩
  simp only [check_document_exists, existsQuery]
  rw [Bool.eq_iff_iff, decide_eq_true_iff, List.any_eq_true]
  constructor
  · intro h
    rcases hfil : storage.filter (fun r => r.title == title && r.date == date) with _ | ⟨r, rs⟩
    · rw [hfil] at h
      simp at h
    · have hr : r ∈ storage.filter (fun r => r.title == title && r.date == date) := by
        rw [hfil]
        exact List.mem_cons_self r rs
      have hm := List.mem_filter.mp hr
      exact ⟨r, hm.1, hm.2⟩
  · intro h
    obtain ⟨r, hr, hp⟩ := h
    have hmem : r ∈ storage.filter (fun r => r.title == title && r.date == date) :=
      List.mem_filter.mpr ⟨hr, hp⟩
    rcases hfil : storage.filter (fun r => r.title == title && r.date == date) with _ | ⟨q, qs⟩
    · rw [hfil] at hmem
      cases hmem
    · rw [hfil]
      simp

/-- C8: a page is retained exactly when its markdown is non-empty and
its stripped length is at least 50; the 49-character boundary page is
dropped and the 50-character one retained. -/
theorem claim_C8_page_filter (pages : List OcrPage) (ext : String) :
    buildPageDataList pages ext =
      (pages.filter (fun p => !(p.markdown == "") && decide (50 ≤ (pyStrip p.markdown).length))).map
        (fun p => { page_number := p.index + 1
                    content := p.markdown
                    original_text := ext
                    page_info := p }) ∧
    buildPageDataList [{ index := 0, markdown := a49 }] ext = [] ∧
    buildPageDataList [{ index := 0, markdown := a50 }] ext =
      [{ page_number := 1, content := a50, original_text := ext
         page_info := { index := 0, markdown := a50 } }] := by
  refine ⟨?_, ?_, ?_⟩
  · rw [buildPageDataList_eq]
    congr 1
    apply List.filter_congr
    intro p _
    rw [Bool.not_or]
    congr 1
    rw [← decide_not]
    simp [Nat.not_lt]
  · rw [buildPageDataList_eq]
    have hc : (!((({ index := 0, markdown := a49 } : OcrPage).markdown == "" ||
        decide ((pyStrip ({ index := 0, markdown := a49 } : OcrPage).markdown).length < 50)))) = false := by
      decide
    simp [List.filter_cons, hc]
    decide
  · rw [buildPageDataList_eq]
    have hc : (!((({ index := 0, markdown := a50 } : OcrPage).markdown == "" ||
        decide ((pyStrip ({ index := 0, markdown := a50 } : OcrPage).markdown).length < 50)))) = true := by
      decide
    simp [List.filter_cons, hc]
    rw [if_pos (by decide : ¬a50 = "" ∧ 50 ≤ (pyStrip a50).length)]
    rfl

/-- C10: the storage loop pairs pages and vectors positionally via
`zip`, so the count of successful inserts never exceeds the shorter
length, and pages beyond the embeddings list are never attempted: any
trailing pages can be appended without changing the outcome. -/
theorem claim_C10_zip_truncation (ins : Row → Bool)
    (date title doc_type pdf_url : String)
    (pages_data extra : List PageData) (embeddings : List Vec) :
    store_document_pages ins date title doc_type pdf_url pages_data embeddings ≤
      min pages_data.length embeddings.length ∧
    (embeddings.length ≤ pages_data.length →
      store_document_pages ins date title doc_type pdf_url (pages_data ++ extra) embeddings =
        store_document_pages ins date title doc_type pdf_url pages_data embeddings) := by
  constructor
  · rw [store_document_pages_eq_countP]
    have h1 := List.countP_le_length
      (fun pe => ins (mkRow date title doc_type pdf_url pe.1 pe.2))
      (l := pages_data.zip embeddings)
    rw [List.length_zip] at h1
    simpa using h1
  · intro h
    unfold store_document_pages
    rw [zip_append_of_le _ _ _ h]

/-- C10 witness: with two pages, one embedding, and an extra trailing
page, the trailing page is never attempted and the count is 1. -/
theorem claim_C10_witness :
    store_document_pages (fun _ => true) "d" "T" "ty" "u" (pd2 ++ pdExtra) [[1]] =
      store_document_pages (fun _ => true) "d" "T" "ty" "u" pd2 [[1]] ∧
    store_document_pages (fun _ => true) "d" "T" "ty" "u" pd2 [[1]] = 1 :=
  ⟨(claim_C10_zip_truncation (fun _ => true) "d" "T" "ty" "u" pd2 pdExtra [[1]]).2
     (by decide), by decide⟩

/-- C1: the claim says that once the download succeeds, the payload file
is deleted exactly once on every terminal path.  Counterexample: with a
raising embeddings call the top-level handler returns without ever
running `pdf_path.unlink()`, so the downloaded file is left behind. -/
theorem claim_C1_counterexample :
    (process_new_document envFailEmbed "d" "T" "ty" "u.pdf").downloaded = true ∧
    (process_new_document envFailEmbed "d" "T" "ty" "u.pdf").unlinks = 0 :=
  ⟨rfl, rfl⟩

/-- C1 (amended): once the download succeeds, the processor deletes the
payload exactly once on every terminal path it completes without an
escaping exception — OCR failure, empty page filter, and the
store/success path — but when the embedding phase raises, the handler
path is taken and the file is not deleted. -/
theorem claim_C1_cleanup_amended (env : Env) (date title doc_type pdf_url : String)
    (h : (process_new_document env date title doc_type pdf_url).downloaded = true) :
    (process_new_document env date title doc_type pdf_url).unlinks =
      if embedPhaseRaised env pdf_url then 0 else 1 := by
  cases hdl : download_pdf (env.dl pdf_url) with
  | none =>
    exfalso
    simp [process_new_document, hdl] at h
  | some p =>
    cases hex : extract_text_from_pdf (env.ocrResp p) with
    | none => simp [process_new_document, embedPhaseRaised, hdl, hex]
    | some od =>
      by_cases hne : (buildPageDataList od.pages od.extractedText).isEmpty
      · simp [process_new_document, embedPhaseRaised, hdl, hex, hne]
      · cases hemb : embedBatchesLoop env.call
            ((buildPageDataList od.pages od.extractedText).map (fun q => q.content)) with
        | error e => simp [process_new_document, embedPhaseRaised, hdl, hex, hne, hemb]
        | ok v => simp [process_new_document, embedPhaseRaised, hdl, hex, hne, hemb]

/-- C1 witness: in the all-success environment the embedding phase does
not raise and the file is deleted exactly once. -/
theorem claim_C1_witness :
    (process_new_document envOk "2024-01-01" "T" "Announcement" "https://x/a.pdf").unlinks =
      (if embedPhaseRaised envOk "https://x/a.pdf" then 0 else 1) ∧
    embedPhaseRaised envOk "https://x/a.pdf" = false :=
  ⟨claim_C1_cleanup_amended envOk "2024-01-01" "T" "Announcement" "https://x/a.pdf" rfl, rfl⟩

/-- C3: `store_document_pages` writes each zipped pair independently and
returns the number of successful inserts, and on the storing path the
processor reports success exactly when that count is positive. -/
theorem claim_C3_store_count_success (env : Env)
    (date title doc_type pdf_url pdf_path : String) (od : OcrData) (embs : List Vec)
    (hdl : download_pdf (env.dl pdf_url) = some pdf_path)
    (hex : extract_text_from_pdf (env.ocrResp pdf_path) = some od)
    (hne : (buildPageDataList od.pages od.extractedText).isEmpty = false)
    (hemb : embedBatchesLoop env.call
      ((buildPageDataList od.pages od.extractedText).map (fun p => p.content)) = .ok embs) :
    (∀ (ins : Row → Bool) (pages_data : List PageData) (embeddings : List Vec),
      store_document_pages ins date title doc_type pdf_url pages_data embeddings =
        (pages_data.zip embeddings).countP
          (fun pe => ins (mkRow date title doc_type pdf_url pe.1 pe.2))) ∧
    (process_new_document env date title doc_type pdf_url).success =
      decide (store_document_pages env.ins date title doc_type pdf_url
        (buildPageDataList od.pages od.extractedText) embs > 0) := by
  refine ⟨fun ins pd em => store_document_pages_eq_countP ins date title doc_type pdf_url pd em, ?_⟩
  simp [process_new_document, hdl, hex, hne, hemb]

/-- C3 witness: three retained pages, exactly one successful insert, and
the processor still reports success. -/
theorem claim_C3_witness :
    (process_new_document envOnePageStores "2024-01-01" "T" "Announcement" "https://x/a.pdf").success = true ∧
    store_document_pages envOnePageStores.ins "2024-01-01" "T" "Announcement" "https://x/a.pdf"
      (buildPageDataList od3.pages od3.extractedText) [[1], [1], [1]] = 1 ∧
    (buildPageDataList od3.pages od3.extractedText).length = 3 := by
  have h := claim_C3_store_count_success envOnePageStores "2024-01-01" "T" "Announcement"
    "https://x/a.pdf" "/tmp/a.pdf" od3 [[1], [1], [1]] rfl rfl rfl rfl
  refine ⟨?_, by decide, by decide⟩
  rw [h.2]
  decide

/-- C7: when every embedding call answers one vector per input in input
order, the processor's chunked batching reconstructs exactly one vector
per retained page, in page order; pages removed by the content filter
are never part of any submitted batch. -/
theorem claim_C7_batch_alignment (call : List String → Except Unit (List Vec))
    (f : String → Vec) (pages : List OcrPage) (ext : String)
    (hcall : ∀ ts, call ts = .ok (ts.map f)) :
    embedBatchesLoop call ((buildPageDataList pages ext).map (fun p => p.content)) =
      .ok ((buildPageDataList pages ext).map (fun p => f (cleanText p.content))) ∧
    (buildPageDataList pages ext).map (fun p => p.content) =
      (pages.filter (fun p => !(p.markdown == "" || (pyStrip p.markdown).length < 50))).map
        (fun p => p.markdown) := by
  constructor
  · unfold embedBatchesLoop
    rw [embedBatchesFuel_map call f hcall _ _ (le_refl _), List.map_map]
    rfl
  · rw [buildPageDataList_eq, List.map_map]
    rfl

/-- C7 witness: for pages [P0, P1, P2] with P1 below the filter, the
submitted contents are exactly [P0, P2] and the two vectors map back to
them in order. -/
theorem claim_C7_witness :
    embedBatchesLoop callLen ((buildPageDataList pages3 "full").map (fun p => p.content)) =
      .ok [[60], [60]] ∧
    (buildPageDataList pages3 "full").map (fun p => p.content) = [a60, b60] := by
  have h := claim_C7_batch_alignment callLen (fun s => [(s.length : Int)]) pages3 "full"
    (fun ts => rfl)
  exact ⟨h.1.trans (by rfl), by rfl⟩

/-- C9: per announcement with no existing match the discovery loop adds
exactly one to the new-document count and one work item per link ending
in `.pdf`, with no per-link existence check; concretely, one new
announcement with two distinct `.pdf` links yields exactly two work
items. -/
theorem claim_C9_fanout (storage : List Row) (df : List AnnRow) :
    (collectNewDocs storage df).1 =
      (df.filter (fun row =>
        !check_document_exists (.ok (existsQuery storage row.title row.date)))).length ∧
    (collectNewDocs storage df).2 =
      (df.filter (fun row =>
        !check_document_exists (.ok (existsQuery storage row.title row.date)))).flatMap
        pdfWorkItems ∧
    collectNewDocs [] [annTwoPdf] =
      (1, [{ date := "2024-01-01", title := "T", doc_type := "Announcement"
             pdf_url := "https://x/a.pdf" },
           { date := "2024-01-01", title := "T", doc_type := "Announcement"
             pdf_url := "https://x/c.pdf" }]) := by
  refine ⟨?_, ?_, by rfl⟩
  · rw [collectNewDocs_spec]
  · rw [collectNewDocs_spec]

/-- One run whose discovery phase finds every announcement already
stored reports zero new documents and processes nothing. -/
theorem run_all_exist (env : Env) (scr : Except Unit (List AnnRow)) (now : String)
    (prev : CronStatus) (storage : List Row)
    (h : ∀ row ∈ scrape_bnm_announcements scr,
      check_document_exists (.ok (existsQuery storage row.title row.date)) = true) :
    (run_daily_scrape env scr now prev storage).1.new_documents = 0 ∧
    (run_daily_scrape env scr now prev storage).1.processed = 0 := by
  unfold run_daily_scrape
  by_cases hdf : (scrape_bnm_announcements scr).isEmpty
  · simp [hdf]
  · have hfil : (scrape_bnm_announcements scr).filter (fun row =>
        !check_document_exists (.ok (existsQuery storage row.title row.date))) = [] := by
      rw [List.filter_eq_nil_iff]
      intro row hrow
      simp [h row hrow]
    have hc : collectNewDocs storage (scrape_bnm_announcements scr) = (0, []) := by
      rw [collectNewDocs_spec, hfil]
      rfl
    simp [hdf, hc, processAll]

/-- C6: the claim says a second run over an unchanged catalog, against
storage reflecting the first run's writes, reports zero new documents.
Counterexample: an announcement whose only link is not a PDF produces no
work items and no writes, so the second run counts it as new again. -/
theorem claim_C6_counterexample :
    (run_daily_scrape envOk catNoPdf "t2"
      (run_daily_scrape envOk catNoPdf "t1" idleStatus []).1
      (run_daily_scrape envOk catNoPdf "t1" idleStatus []).2).1.new_documents = 1 := rfl

/-- C6 (amended): the second run reports zero new documents and zero
processed documents provided the storage produced by the first run
holds a matching (title, date) row for every announcement in the
catalog — that is, the first run persisted at least one page for each
announcement it saw as new. -/
theorem claim_C6_idempotence_amended (env : Env) (scr : Except Unit (List AnnRow))
    (now1 now2 : String) (prev : CronStatus) (storage0 : List Row)
    (h : ∀ row ∈ scrape_bnm_announcements scr,
      check_document_exists (.ok (existsQuery
        (run_daily_scrape env scr now1 prev storage0).2 row.title row.date)) = true) :
    (run_daily_scrape env scr now2
        (run_daily_scrape env scr now1 prev storage0).1
        (run_daily_scrape env scr now1 prev storage0).2).1.new_documents = 0 ∧
    (run_daily_scrape env scr now2
        (run_daily_scrape env scr now1 prev storage0).1
        (run_daily_scrape env scr now1 prev storage0).2).1.processed = 0 :=
  run_all_exist env scr now2
    (run_daily_scrape env scr now1 prev storage0).1
    (run_daily_scrape env scr now1 prev storage0).2 h

/-- C6 witness: a fully successful first run over the one-PDF catalog
makes the second run report zero new and zero processed documents. -/
theorem claim_C6_witness :
    (run_daily_scrape envOk catPdf "t2"
        (run_daily_scrape envOk catPdf "t1" idleStatus []).1
        (run_daily_scrape envOk catPdf "t1" idleStatus []).2).1.new_documents = 0 ∧
    (run_daily_scrape envOk catPdf "t2"
        (run_daily_scrape envOk catPdf "t1" idleStatus []).1
        (run_daily_scrape envOk catPdf "t1" idleStatus []).2).1.processed = 0 :=
  claim_C6_idempotence_amended envOk catPdf "t1" "t2" idleStatus [] (by decide)

end BNM
